import Mathlib

/-! Shallow embedding of the `discord_ext_oauth` library (client.py, models.py,
guild.py) and proofs about its behaviour.

JSON payloads decoded by the HTTP layer are modelled by `JValue`.  Python dict
keys may be tuples (models.py indexes a payload with the tuple key
`("id", 0)`), so dictionary keys are modelled by `PyKey` with a string
constructor and a string-int pair constructor.  Python runtime errors that the
modelled code can raise (KeyError, AttributeError, TypeError, ValueError) are
modelled by `PyError`; fallible Python code becomes `Except PyError`.

The HTTP transport (http.py is not part of the sources) is abstracted as an
oracle `Request → Except PyError JValue` passed to each operation; the
`_state_info` dictionary it carries is modelled from its uses in client.py and
models.py. -/

/-- A Python dictionary key: either a string, or a (string, int) tuple
(models.py's `self._data["id", 0]` looks up the tuple key `("id", 0)`). -/
inductive PyKey where
  | str (s : String)
  | pair (s : String) (n : Int)
deriving DecidableEq, Repr

/-- A decoded JSON value / Python object as held in the payload dictionaries. -/
inductive JValue where
  | jnull
  | jbool (b : Bool)
  | jint (n : Int)
  | jstr (s : String)
  | jarr (xs : List JValue)
  | jobj (fields : List (PyKey × JValue))
deriving Repr

/-- The Python exceptions the modelled code can raise. -/
inductive PyError where
  | keyError (k : PyKey)
  | attributeError
  | typeError
  | valueError
deriving DecidableEq, Repr

/-- Association-list lookup backing dictionary access (Python dicts have
unique keys, so first match is the value). -/
def alistLookup : List (PyKey × JValue) → PyKey → Option JValue
  | [], _ => none
  | (k', v) :: rest, k => if k' = k then some v else alistLookup rest k

/-- Python `d[k]`: KeyError when the key is absent from a dict; TypeError when
the subscripted value is not a dict (indexing a string with a string key is
the TypeError that `TokenResponse(data=<str>)` hits). -/
def pyGetItem (d : JValue) (k : PyKey) : Except PyError JValue :=
  match d with
  | .jobj fs =>
    match alistLookup fs k with
    | some v => .ok v
    | none => .error (.keyError k)
  | _ => .error .typeError

/-- Python `d.get(k, default)`: never raises on a dict; AttributeError when the
receiver is not a dict. -/
def pyGet (d : JValue) (k : PyKey) (default : JValue) : Except PyError JValue :=
  match d with
  | .jobj fs =>
    match alistLookup fs k with
    | some v => .ok v
    | none => .ok default
  | _ => .error .attributeError

/-- Python truthiness of a payload value. -/
def pyTruthy : JValue → Bool
  | .jnull => false
  | .jbool b => b
  | .jint n => n ≠ 0
  | .jstr s => s ≠ ""
  | .jarr xs => !xs.isEmpty
  | .jobj fs => !fs.isEmpty

/-- Python `str()` as used by the `"...{}".format(...)` calls in the sources.
The modelled code only ever formats None, bools, ints and strings; container
reprs are not modelled. -/
def pyStr : JValue → String
  | .jnull => "None"
  | .jbool b => if b then "True" else "False"
  | .jint n => toString n
  | .jstr s => s
  | .jarr _ => "<list>"
  | .jobj _ => "<dict>"

/-- f-string rendering of an `Optional[str]` (None renders as "None"). -/
def pyStrOptS : Option String → String
  | none => "None"
  | some s => s

/-- Python `int(x)` on a payload value. -/
def pyInt : JValue → Except PyError Int
  | .jint n => .ok n
  | .jbool b => .ok (if b then 1 else 0)
  | .jstr s =>
    match s.toInt? with
    | some n => .ok n
    | none => .error .valueError
  | _ => .error .typeError

/-- Python `s.startswith("a")` — the only startswith call the sources make is
for the single-character "a", so it is modelled directly on the character
list. -/
def startswithA (s : String) : Bool :=
  match s.data with
  | [] => false
  | c :: _ => c = 'a'

/-- Python `s.endswith(t)` (used only in statements about URL extensions). -/
def strEndsWith (s t : String) : Bool :=
  t.data.isSuffixOf s.data

/-- The hash-to-format conditional shared by models.py and guild.py:
`None if not h else "gif" if h.startswith("a") else "png"`.  A truthy
non-string raises AttributeError at `.startswith`. -/
def fmtOfHash (h : JValue) : Except PyError (Option String) :=
  if pyTruthy h then
    match h with
    | .jstr s => .ok (some (if startswithA s then "gif" else "png"))
    | _ => .error .attributeError
  else
    .ok none

/-- An HTTP route (http.py's `Route(method, path)` as used by the sources). -/
structure Route where
  method : String
  path : String
deriving DecidableEq, Repr

/-- A transport request: the route plus the headers and form data the caller
passes to `HTTPClient.request`. -/
structure Request where
  route : Route
  headers : List (String × String)
  data : List (String × JValue)

/-- The transport client.  http.py is not among the sources; only its
`_state_info` dictionary is observable from client.py (which fills it) and
models.py (which reads client credentials out of it), so this models exactly
that. The actual `request` coroutine is abstracted as an oracle argument of
the operations that call it. -/
structure HTTPClient where
  _state_info : List (String × JValue)

/-- Lookup in `_state_info` (string-keyed dict; KeyError when absent). -/
def stateLookup (h : HTTPClient) (k : String) : Except PyError JValue :=
  match h._state_info.lookup k with
  | some v => .ok v
  | none => .error (.keyError (.str k))

/-- models.py `TokenResponse`: the five attributes pulled out of the
token-endpoint payload, plus the raw payload. -/
structure TokenResponse where
  _data : JValue
  access_token : JValue
  token_type : JValue
  expires_in : JValue
  refresh_token : JValue
  scope : JValue

/-- models.py `TokenResponse.__init__`: stores the payload and indexes the five
required fields, raising KeyError at the first absent one (TypeError when the
payload is not a dict at all). -/
def TokenResponse.init (data : JValue) : Except PyError TokenResponse :=
  match pyGetItem data (.str "access_token") with
  | .error e => .error e
  | .ok v1 =>
    match pyGetItem data (.str "token_type") with
    | .error e => .error e
    | .ok v2 =>
      match pyGetItem data (.str "expires_in") with
      | .error e => .error e
      | .ok v3 =>
        match pyGetItem data (.str "refresh_token") with
        | .error e => .error e
        | .ok v4 =>
          match pyGetItem data (.str "scope") with
          | .error e => .error e
          | .ok v5 =>
            .ok { _data := data, access_token := v1, token_type := v2,
                  expires_in := v3, refresh_token := v4, scope := v5 }

/-- `DiscordObject.json`: returns the original JSON data for the model. -/
def TokenResponse.json (t : TokenResponse) : JValue := t._data

/-- guild.py `Guild`: the partial-guild model.  The back-reference `user` to
the owning User would make the types mutually cyclic (the User holds a list of
Guilds), so it is modelled by the owning user's `id` value. -/
structure Guild where
  _data : JValue
  _icon_hash : JValue
  _icon_format : Option String
  user_id : JValue
  id : Int
  name : JValue
  icon_url : Option String
  is_user_owner : JValue
  features : JValue

/-- guild.py `Guild.__init__`: `icon` via `.get`, format conditional, then
`id = int(data.get("id", 0))`, `name = data.get("name")`, CDN icon URL when a
format was derived, `owner` and `features` via `.get`. -/
def Guild.init (data : JValue) (userId : JValue) : Except PyError Guild :=
  match pyGet data (.str "icon") .jnull with
  | .error e => .error e
  | .ok icon_hash =>
    match fmtOfHash icon_hash with
    | .error e => .error e
    | .ok icon_format =>
      match pyGet data (.str "id") (.jint 0) with
      | .error e => .error e
      | .ok idv =>
        match pyInt idv with
        | .error e => .error e
        | .ok gid =>
          match pyGet data (.str "name") .jnull with
          | .error e => .error e
          | .ok gname =>
            match pyGet data (.str "owner") .jnull with
            | .error e => .error e
            | .ok owner =>
              match pyGet data (.str "features") .jnull with
              | .error e => .error e
              | .ok feats =>
                .ok { _data := data, _icon_hash := icon_hash,
                      _icon_format := icon_format, user_id := userId,
                      id := gid, name := gname,
                      icon_url :=
                        match icon_format with
                        | some f => some ("https://cdn.discordapp.com/icons/"
                            ++ toString gid ++ "/" ++ pyStr icon_hash ++ "." ++ f)
                        | none => none,
                      is_user_owner := owner, features := feats }

/-- models.py `Guild`: the second, independent Guild model (the one
`User.fetch_guilds` constructs).  Back-reference modelled as in `Guild`. -/
structure Models.Guild where
  _data : JValue
  _icon_hash : JValue
  _icon_format : Option String
  user_id : JValue
  id : JValue
  name : JValue
  icon_url : Option String
  is_user_owner : JValue
  features : JValue

/-- models.py `Guild.__init__`: like guild.py's, except the id is read with
`self._data["id", 0]` — a dict lookup at the tuple key `("id", 0)` — and
`name` with `self._data["name"]`, both raising KeyError when absent; `features`
defaults to the empty list. -/
def Models.Guild.init (data : JValue) (userId : JValue) :
    Except PyError Models.Guild :=
  match pyGet data (.str "icon") .jnull with
  | .error e => .error e
  | .ok icon_hash =>
    match fmtOfHash icon_hash with
    | .error e => .error e
    | .ok icon_format =>
      match pyGetItem data (.pair "id" 0) with
      | .error e => .error e
      | .ok gid =>
        match pyGetItem data (.str "name") with
        | .error e => .error e
        | .ok gname =>
          match pyGet data (.str "owner") .jnull with
          | .error e => .error e
          | .ok owner =>
            match pyGet data (.str "features") (.jarr []) with
            | .error e => .error e
            | .ok feats =>
              .ok { _data := data, _icon_hash := icon_hash,
                    _icon_format := icon_format, user_id := userId,
                    id := gid, name := gname,
                    icon_url :=
                      match icon_format with
                      | some f => some ("https://cdn.discordapp.com/icons/"
                          ++ pyStr gid ++ "/" ++ pyStr icon_hash ++ "." ++ f)
                      | none => none,
                    is_user_owner := owner, features := feats }

/-- models.py `User`: profile fields, the held credential `_acr`, the
transport back-reference and the guild cache. -/
structure User where
  _data : JValue
  _http : HTTPClient
  _acr : TokenResponse
  _avatar_hash : JValue
  _avatar_format : Option String
  id : JValue
  name : JValue
  avatar_url : Option String
  discriminator : JValue
  mfa_enabled : JValue
  email : JValue
  verified : JValue
  guilds : List Models.Guild

/-- The `acr` argument of `User.__init__`: either an existing TokenResponse or
any other value (a dict per the annotation, but `identify` passes its raw
`token` argument through, which may be a string). -/
inductive Acr where
  | tok (t : TokenResponse)
  | raw (v : JValue)

/-- models.py `User.__init__`: keeps `acr` when it already is a TokenResponse
and otherwise builds `TokenResponse(data=acr)`; then derives the avatar
format/URL and reads the profile fields (avatar, id, username, discriminator
required; mfa_enabled, email, verified via `.get`).  The guild cache starts
empty. -/
def User.init (http : HTTPClient) (data : JValue) (acr : Acr) :
    Except PyError User :=
  match (match acr with
         | .tok t => .ok t
         | .raw v => TokenResponse.init v : Except PyError TokenResponse) with
  | .error e => .error e
  | .ok acr' =>
    match pyGetItem data (.str "avatar") with
    | .error e => .error e
    | .ok avatar_hash =>
      match fmtOfHash avatar_hash with
      | .error e => .error e
      | .ok avatar_format =>
        match pyGetItem data (.str "id") with
        | .error e => .error e
        | .ok uid =>
          match pyGetItem data (.str "username") with
          | .error e => .error e
          | .ok uname =>
            match pyGetItem data (.str "discriminator") with
            | .error e => .error e
            | .ok disc =>
              match pyGet data (.str "mfa_enabled") .jnull with
              | .error e => .error e
              | .ok mfa =>
                match pyGet data (.str "email") .jnull with
                | .error e => .error e
                | .ok email =>
                  match pyGet data (.str "verified") .jnull with
                  | .error e => .error e
                  | .ok verified =>
                    .ok { _data := data, _http := http, _acr := acr',
                          _avatar_hash := avatar_hash,
                          _avatar_format := avatar_format,
                          id := uid, name := uname,
                          avatar_url :=
                            if pyTruthy avatar_hash then
                              some ("https://cdn.discordapp.com/avatars/"
                                ++ pyStr uid ++ "/" ++ pyStr avatar_hash ++ "."
                                ++ pyStrOptS avatar_format)
                            else none,
                          discriminator := disc, mfa_enabled := mfa,
                          email := email, verified := verified, guilds := [] }

/-- `User.access_token` property. -/
def User.access_token (u : User) : JValue := u._acr.access_token

/-- `User.refresh_token` property. -/
def User.refresh_token (u : User) : JValue := u._acr.refresh_token

/-- `DiscordObject.json` for User. -/
def User.json (u : User) : JValue := u._data

/-- client.py module constant. -/
def DISCORD_URL : String := "https://discord.com"

/-- client.py `OAuth2Client`: configuration plus the transport client whose
`_state_info` the constructor fills. -/
structure OAuth2Client where
  _id : Int
  _auth : String
  _redirect : String
  _scopes : Option String
  http : HTTPClient

/-- Truthiness of an `Optional[str]` (None and the empty string are falsy). -/
def optTruthy : Option String → Bool
  | none => false
  | some s => s ≠ ""

/-- client.py `OAuth2Client.__init__`: joins the scopes with single spaces
(None stays None) and fills the transport's `_state_info` with the client
credentials. -/
def OAuth2Client.init (client_id : Int) (client_secret : String)
    (redirect_uri : String) (scopes : Option (List String)) : OAuth2Client :=
  let joined : Option String := scopes.map (fun l => String.intercalate " " l)
  { _id := client_id, _auth := client_secret, _redirect := redirect_uri,
    _scopes := joined,
    http := { _state_info :=
      [("client_id", .jint client_id), ("client_secret", .jstr client_secret),
       ("redirect_uri", .jstr redirect_uri),
       ("scopes", match joined with | some s => .jstr s | none => .jnull)] } }

/-- client.py `OAuth2Client.auth`: pure authorization-URL builder.  The scope
segment is always emitted (an unconfigured scope list renders as the literal
"None"); `state`/`prompt` are appended only when truthy. -/
def OAuth2Client.auth (c : OAuth2Client) (state prompt : Option String) :
    String :=
  let client_id := "client_id=" ++ toString c._id
  let redirect_uri := "redirect_uri=" ++ c._redirect
  let scopes := "scope=" ++ pyStrOptS c._scopes
  let response_type := "response_type=code"
  let url := DISCORD_URL ++ "/api/oauth2/authorize?" ++ client_id ++ "&"
    ++ redirect_uri ++ "&" ++ scopes ++ "&" ++ response_type
  let url := if optTruthy state then url ++ "&state=" ++ state.getD "" else url
  if optTruthy prompt then url ++ "&prompt=" ++ prompt.getD "" else url

/-- The `token` argument of `OAuth2Client.identify`
(`Union[str, TokenResponse]`). -/
inductive TokenArg where
  | str (s : String)
  | resp (t : TokenResponse)

/-- The request `identify` issues: `GET /users/@me` with a Bearer header
built from the access token (the token itself for a string argument, the
`access_token` attribute for a TokenResponse). -/
def identifyRequest (token : TokenArg) : Request :=
  let access_token : JValue :=
    match token with
    | .resp t => t.access_token
    | .str s => .jstr s
  { route := { method := "GET", path := "/users/@me" },
    headers := [("Authorization", "Bearer " ++ pyStr access_token)],
    data := [] }

/-- client.py `OAuth2Client.identify`: issues the request and builds
`User(http=self.http, data=resp, acr=token)` — note `acr` receives the raw
`token` argument, not the extracted access token. -/
def OAuth2Client.identify (c : OAuth2Client)
    (transport : Request → Except PyError JValue) (token : TokenArg) :
    Except PyError User :=
  match transport (identifyRequest token) with
  | .error e => .error e
  | .ok resp =>
    User.init c.http resp
      (match token with
       | .resp t => .tok t
       | .str s => .raw (.jstr s))

/-- The token-endpoint request `User.refresh` issues, given the looked-up
client credentials. -/
def refreshRequest (cid cs rt : JValue) : Request :=
  { route := { method := "POST", path := "/oauth2/token" },
    headers := [],
    data := [("client_id", cid), ("client_secret", cs),
             ("grant_type", .jstr "refresh_token"), ("refresh_token", rt)] }

/-- models.py `User.refresh`: reads the client credentials out of the
transport's `_state_info`, posts the refresh-token grant, wraps the response
in a TokenResponse, stores it as the held credential and returns it.  The
second component is the user state after the call (unchanged on error, since
`self._acr` is only assigned after the request and construction succeed). -/
def User.refresh (u : User)
    (transport : Request → Except PyError JValue) :
    Except PyError TokenResponse × User :=
  let rt := u.refresh_token
  match stateLookup u._http "client_id" with
  | .error e => (.error e, u)
  | .ok cid =>
    match stateLookup u._http "client_secret" with
    | .error e => (.error e, u)
    | .ok cs =>
      match transport (refreshRequest cid cs rt) with
      | .error e => (.error e, u)
      | .ok request_data =>
        match TokenResponse.init request_data with
        | .error e => (.error e, u)
        | .ok token_resp => (.ok token_resp, { u with _acr := token_resp })

/-- The request `User.fetch_guilds` issues: `GET /users/@me/guilds` with the
user's current access token as Bearer header. -/
def User.guildsRequest (u : User) : Request :=
  { route := { method := "GET", path := "/users/@me/guilds" },
    headers := [("Authorization", "Bearer " ++ pyStr u.access_token)],
    data := [] }

/-- Python iteration over the guilds response (`for array in resp`).  The
endpoint returns a JSON array; iteration over non-sequences is not modelled
and raises TypeError. -/
def pyIterList : JValue → Except PyError (List JValue)
  | .jarr xs => .ok xs
  | _ => .error .typeError

/-- The guild-construction loop of `fetch_guilds`: builds a models.py Guild
per element, appending to the cache; on a constructor error the elements
appended so far remain (the Python loop mutates `self.guilds` in place). -/
def buildGuilds (userId : JValue) :
    List JValue → List Models.Guild →
    Except PyError (List Models.Guild) × List Models.Guild
  | [], acc => (.ok acc, acc)
  | x :: xs, acc =>
    match Models.Guild.init x userId with
    | .error e => (.error e, acc)
    | .ok g => buildGuilds userId xs (acc ++ [g])

/-- models.py `User.fetch_guilds`: returns the cache without I/O when
`refresh` is false and the cache is non-empty; otherwise issues the request,
resets the cache and fills it with freshly constructed models.py Guilds.
Returns the result, the user state after the call, and the number of
transport requests performed (0 or 1). -/
def User.fetch_guilds (u : User)
    (transport : Request → Except PyError JValue) (refresh : Bool) :
    Except PyError (List Models.Guild) × User × Nat :=
  if !refresh && !u.guilds.isEmpty then
    (.ok u.guilds, u, 0)
  else
    match transport u.guildsRequest with
    | .error e => (.error e, u, 1)
    | .ok resp =>
      match pyIterList resp with
      | .error e => (.error e, { u with guilds := [] }, 1)
      | .ok items =>
        let r := buildGuilds u.id items []
        (r.1, { u with guilds := r.2 }, 1)

/-! ## Helper lemmas -/

/-- `.get` on a dict never raises: it returns the looked-up value or the
default. -/
theorem pyGet_jobj (fs : List (PyKey × JValue)) (k : PyKey) (d : JValue) :
    pyGet (.jobj fs) k d = .ok ((alistLookup fs k).getD d) := by
  cases h : alistLookup fs k <;> simp [pyGet, h]

/-- A dict whose keys are all strings has nothing at a tuple key. -/
theorem alistLookup_pair_of_str_keys (fs : List (PyKey × JValue))
    (hkeys : ∀ p ∈ fs, ∃ s, p.1 = PyKey.str s) (s : String) (n : Int) :
    alistLookup fs (.pair s n) = none := by
  induction fs with
  | nil => rfl
  | cons p rest ih =>
    obtain ⟨s', hs⟩ := hkeys p (by simp)
    obtain ⟨k, v⟩ := p
    simp only [alistLookup]
    simp only at hs
    subst hs
    simp only [reduceCtorEq, if_false]
    exact ih (fun q hq => hkeys q (by simp [hq]))

/-! ## C5: TokenResponse round-trip -/

/-- C5: for every JSON map containing the five required fields, TokenResponse
construction succeeds and `json()` returns exactly the original payload. -/
theorem C5_token_round_trip (fs : List (PyKey × JValue))
    (v1 v2 v3 v4 v5 : JValue)
    (h1 : alistLookup fs (.str "access_token") = some v1)
    (h2 : alistLookup fs (.str "token_type") = some v2)
    (h3 : alistLookup fs (.str "expires_in") = some v3)
    (h4 : alistLookup fs (.str "refresh_token") = some v4)
    (h5 : alistLookup fs (.str "scope") = some v5) :
    ∃ t, TokenResponse.init (.jobj fs) = .ok t ∧ t.json = .jobj fs := by
  refine ⟨⟨.jobj fs, v1, v2, v3, v4, v5⟩, ?_, rfl⟩
  simp [TokenResponse.init, pyGetItem, h1, h2, h3, h4, h5]

/-- A concrete five-field token payload. -/
def tokFields : List (PyKey × JValue) :=
  [(.str "access_token", .jstr "at0"), (.str "token_type", .jstr "Bearer"),
   (.str "expires_in", .jint 604800), (.str "refresh_token", .jstr "rt0"),
   (.str "scope", .jstr "identify")]

/-- Witness for C5 at the concrete payload `tokFields`. -/
theorem C5_token_round_trip_witness :
    ∃ t, TokenResponse.init (.jobj tokFields) = .ok t
      ∧ t.json = .jobj tokFields :=
  C5_token_round_trip tokFields _ _ _ _ _ rfl rfl rfl rfl rfl

/-! ## C6: missing token field is a hard error -/

/-- C6: a token payload missing any of the five required fields makes
TokenResponse construction fail with a KeyError at a missing field; it can
never succeed with the field silently defaulted. -/
theorem C6_missing_field_fails (fs : List (PyKey × JValue))
    (hmiss : alistLookup fs (.str "access_token") = none ∨
             alistLookup fs (.str "token_type") = none ∨
             alistLookup fs (.str "expires_in") = none ∨
             alistLookup fs (.str "refresh_token") = none ∨
             alistLookup fs (.str "scope") = none) :
    ∃ s, s ∈ ["access_token", "token_type", "expires_in", "refresh_token",
              "scope"]
      ∧ alistLookup fs (.str s) = none
      ∧ TokenResponse.init (.jobj fs) = .error (.keyError (.str s)) := by
  cases h1 : alistLookup fs (.str "access_token") with
  | none =>
    exact ⟨"access_token", by simp, h1, by simp [TokenResponse.init, pyGetItem, h1]⟩
  | some v1 =>
    cases h2 : alistLookup fs (.str "token_type") with
    | none =>
      exact ⟨"token_type", by simp, h2,
        by simp [TokenResponse.init, pyGetItem, h1, h2]⟩
    | some v2 =>
      cases h3 : alistLookup fs (.str "expires_in") with
      | none =>
        exact ⟨"expires_in", by simp, h3,
          by simp [TokenResponse.init, pyGetItem, h1, h2, h3]⟩
      | some v3 =>
        cases h4 : alistLookup fs (.str "refresh_token") with
        | none =>
          exact ⟨"refresh_token", by simp, h4,
            by simp [TokenResponse.init, pyGetItem, h1, h2, h3, h4]⟩
        | some v4 =>
          cases h5 : alistLookup fs (.str "scope") with
          | none =>
            exact ⟨"scope", by simp, h5,
              by simp [TokenResponse.init, pyGetItem, h1, h2, h3, h4, h5]⟩
          | some v5 =>
            simp [h1, h2, h3, h4, h5] at hmiss

/-- Witness for C6 at a payload lacking `refresh_token`. -/
theorem C6_missing_field_fails_witness :
    ∃ s, s ∈ ["access_token", "token_type", "expires_in", "refresh_token",
              "scope"]
      ∧ alistLookup [(PyKey.str "access_token", JValue.jstr "at0"),
                     (PyKey.str "token_type", JValue.jstr "Bearer"),
                     (PyKey.str "expires_in", JValue.jint 1),
                     (PyKey.str "scope", JValue.jstr "identify")] (.str s) = none
      ∧ TokenResponse.init (.jobj
          [(PyKey.str "access_token", JValue.jstr "at0"),
           (PyKey.str "token_type", JValue.jstr "Bearer"),
           (PyKey.str "expires_in", JValue.jint 1),
           (PyKey.str "scope", JValue.jstr "identify")])
          = .error (.keyError (.str s)) :=
  C6_missing_field_fails _ (Or.inr (Or.inr (Or.inr (Or.inl rfl))))

/-! ## C1: avatar/icon URL derivation (corrected) -/

/-- A concrete transport client with the credentials client.py stores. -/
def httpc : HTTPClient :=
  { _state_info := [("client_id", .jint 1), ("client_secret", .jstr "s"),
                    ("redirect_uri", .jstr "https://a.test/cb"),
                    ("scopes", .jstr "identify")] }

/-- A concrete TokenResponse (as built from `tokFields`). -/
def tok0 : TokenResponse :=
  { _data := .jobj tokFields, access_token := .jstr "at0",
    token_type := .jstr "Bearer", expires_in := .jint 604800,
    refresh_token := .jstr "rt0", scope := .jstr "identify" }

/-- A user payload whose avatar hash is "abc123". -/
def userDataAbc : JValue :=
  .jobj [(.str "avatar", .jstr "abc123"), (.str "id", .jint 1),
         (.str "username", .jstr "u"), (.str "discriminator", .jint 1)]

/-- C1 counterexample: for the avatar hash "abc123" the code derives a CDN URL
with extension gif (the format conditional tests `startswith("a")` and
"abc123" starts with "a"), refuting the claim that this hash yields png; and a
user payload with no avatar key at all fails construction with KeyError
instead of deriving `avatar_url = None`. -/
theorem C1_counterexample :
    (User.init httpc userDataAbc (.tok tok0)).map (fun u => u.avatar_url)
      = .ok (some "https://cdn.discordapp.com/avatars/1/abc123.gif")
    ∧ strEndsWith "https://cdn.discordapp.com/avatars/1/abc123.gif" ".png"
        = false
    ∧ strEndsWith "https://cdn.discordapp.com/avatars/1/abc123.gif" ".gif"
        = true
    ∧ User.init httpc (.jobj [(.str "id", .jint 1), (.str "username", .jstr "u"),
        (.str "discriminator", .jint 1)]) (.tok tok0)
      = .error (.keyError (.str "avatar")) := by
  exact ⟨rfl, by decide, by decide, rfl⟩

/-- C1 amended: hash absent (null) or empty gives no URL; a non-empty hash
gives a CDN URL whose extension is gif when the hash starts with "a" (so also
for "abc123") and png otherwise; identically for User.avatar_url (from the
required "avatar" field) and guild.py Guild.icon_url (from the optional
"icon" field). -/
theorem C1_amended :
    (∀ (fs : List (PyKey × JValue)) (http : HTTPClient) (tok : TokenResponse)
       (h : String) (uid uname disc : JValue),
       alistLookup fs (.str "avatar") = some (.jstr h) →
       alistLookup fs (.str "id") = some uid →
       alistLookup fs (.str "username") = some uname →
       alistLookup fs (.str "discriminator") = some disc →
       (User.init http (.jobj fs) (.tok tok)).map (fun u => u.avatar_url)
         = .ok (if h = "" then none else
           some ("https://cdn.discordapp.com/avatars/" ++ pyStr uid ++ "/"
             ++ h ++ "." ++ (if startswithA h then "gif" else "png"))))
    ∧ (∀ (fs : List (PyKey × JValue)) (http : HTTPClient) (tok : TokenResponse)
         (uid uname disc : JValue),
         alistLookup fs (.str "avatar") = some .jnull →
         alistLookup fs (.str "id") = some uid →
         alistLookup fs (.str "username") = some uname →
         alistLookup fs (.str "discriminator") = some disc →
         (User.init http (.jobj fs) (.tok tok)).map (fun u => u.avatar_url)
           = .ok none)
    ∧ (∀ (fs : List (PyKey × JValue)) (uv : JValue) (h : String)
         (idv : JValue) (gid : Int),
         alistLookup fs (.str "icon") = some (.jstr h) →
         pyGet (.jobj fs) (.str "id") (.jint 0) = .ok idv →
         pyInt idv = .ok gid →
         (Guild.init (.jobj fs) uv).map (fun g => g.icon_url)
           = .ok (if h = "" then none else
             some ("https://cdn.discordapp.com/icons/" ++ toString gid ++ "/"
               ++ h ++ "." ++ (if startswithA h then "gif" else "png"))))
    ∧ (∀ (fs : List (PyKey × JValue)) (uv idv : JValue) (gid : Int),
         (alistLookup fs (.str "icon") = none ∨
          alistLookup fs (.str "icon") = some .jnull) →
         pyGet (.jobj fs) (.str "id") (.jint 0) = .ok idv →
         pyInt idv = .ok gid →
         (Guild.init (.jobj fs) uv).map (fun g => g.icon_url) = .ok none) := by
  refine ⟨?_, ?_, ?_, ?_⟩
  · intro fs http tok h uid uname disc h1 h2 h3 h4
    by_cases hh : h = ""
    · subst hh
      simp [User.init, Except.map, pyGetItem, fmtOfHash, pyTruthy, pyGet_jobj,
            h1, h2, h3, h4]
    · simp [User.init, Except.map, pyGetItem, fmtOfHash, pyTruthy, pyGet_jobj,
            h1, h2, h3, h4, hh, pyStr, pyStrOptS]
  · intro fs http tok uid uname disc h1 h2 h3 h4
    simp [User.init, Except.map, pyGetItem, fmtOfHash, pyTruthy, pyGet_jobj,
          h1, h2, h3, h4]
  · intro fs uv h idv gid h1 h2 h3
    by_cases hh : h = ""
    · subst hh
      simp [Guild.init, Except.map, pyGetItem, fmtOfHash, pyTruthy, pyGet_jobj,
            h1, h2, h3]
    · simp [Guild.init, Except.map, pyGetItem, fmtOfHash, pyTruthy, pyGet_jobj,
            h1, h2, h3, hh, pyStr]
  · intro fs uv idv gid h1 h2 h3
    rcases h1 with h1 | h1 <;>
      simp [Guild.init, Except.map, pyGetItem, fmtOfHash, pyTruthy, pyGet_jobj,
            h1, h2, h3]

/-- A user payload with an animated-style avatar hash. -/
def userDataAnim : List (PyKey × JValue) :=
  [(.str "avatar", .jstr "a_abc123"), (.str "id", .jint 1),
   (.str "username", .jstr "u"), (.str "discriminator", .jint 1)]

/-- A user payload with a null avatar. -/
def userDataNoAv : List (PyKey × JValue) :=
  [(.str "avatar", .jnull), (.str "id", .jint 1),
   (.str "username", .jstr "u"), (.str "discriminator", .jint 1)]

/-- A guild payload with an icon hash. -/
def guildDataIcon : List (PyKey × JValue) :=
  [(.str "icon", .jstr "xyz"), (.str "id", .jint 5), (.str "name", .jstr "g")]

/-- A guild payload with no icon. -/
def guildDataNoIcon : List (PyKey × JValue) :=
  [(.str "id", .jint 7), (.str "name", .jstr "g")]

/-- Witness for the amended C1 at concrete payloads. -/
theorem C1_amended_witness :
    ((User.init httpc (.jobj userDataAnim) (.tok tok0)).map
        (fun u => u.avatar_url)
      = .ok (if "a_abc123" = "" then none else
          some ("https://cdn.discordapp.com/avatars/" ++ pyStr (.jint 1) ++ "/"
            ++ "a_abc123" ++ "."
            ++ (if startswithA "a_abc123" then "gif" else "png"))))
    ∧ ((User.init httpc (.jobj userDataNoAv) (.tok tok0)).map
        (fun u => u.avatar_url) = .ok none)
    ∧ ((Guild.init (.jobj guildDataIcon) (.jint 1)).map (fun g => g.icon_url)
      = .ok (if "xyz" = "" then none else
          some ("https://cdn.discordapp.com/icons/" ++ toString (5 : Int) ++ "/"
            ++ "xyz" ++ "." ++ (if startswithA "xyz" then "gif" else "png"))))
    ∧ ((Guild.init (.jobj guildDataNoIcon) (.jint 1)).map (fun g => g.icon_url)
      = .ok none) :=
  ⟨C1_amended.1 userDataAnim httpc tok0 "a_abc123" _ _ _ rfl rfl rfl rfl,
   C1_amended.2.1 userDataNoAv httpc tok0 _ _ _ rfl rfl rfl rfl,
   C1_amended.2.2.1 guildDataIcon (.jint 1) "xyz" _ 5 rfl rfl rfl,
   C1_amended.2.2.2 guildDataNoIcon (.jint 1) _ 7 (Or.inl rfl) rfl rfl⟩

/-! ## C4: models.py Guild construction raises on ordinary payloads -/

/-- C4: for a guild JSON object — an ordinary map with string keys whose
`icon`, if present, is a hash string or null — models.py `Guild.__init__`
raises KeyError at the tuple key `("id", 0)`, and `User.fetch_guilds`
(refresh=true), which constructs that Guild for each element, raises the same
error for any non-empty guild-list response starting with such an object. -/
theorem C4_models_guild_key_error (fs : List (PyKey × JValue)) (uid : JValue)
    (u : User) (transport : Request → Except PyError JValue)
    (rest : List JValue)
    (hkeys : ∀ p ∈ fs, ∃ s, p.1 = PyKey.str s)
    (hicon : ∀ v, alistLookup fs (.str "icon") = some v →
       v = .jnull ∨ ∃ s, v = .jstr s)
    (htr : transport u.guildsRequest = .ok (.jarr (.jobj fs :: rest))) :
    Models.Guild.init (.jobj fs) uid = .error (.keyError (.pair "id" 0))
    ∧ (u.fetch_guilds transport true).1
        = .error (.keyError (.pair "id" 0)) := by
  have hpair := alistLookup_pair_of_str_keys fs hkeys "id" 0
  have hinit : ∀ uv, Models.Guild.init (.jobj fs) uv
      = .error (.keyError (.pair "id" 0)) := by
    intro uv
    rcases hi : alistLookup fs (.str "icon") with _ | v
    · simp [Models.Guild.init, pyGet_jobj, hi, fmtOfHash, pyTruthy,
            pyGetItem, hpair]
    · rcases hicon v hi with hv | ⟨s, hv⟩
      · subst hv
        simp [Models.Guild.init, pyGet_jobj, hi, fmtOfHash, pyTruthy,
              pyGetItem, hpair]
      · subst hv
        by_cases hs : s = ""
        · subst hs
          simp [Models.Guild.init, pyGet_jobj, hi, fmtOfHash, pyTruthy,
                pyGetItem, hpair]
        · simp [Models.Guild.init, pyGet_jobj, hi, fmtOfHash, pyTruthy,
                pyGetItem, hpair, hs]
  refine ⟨hinit uid, ?_⟩
  simp [User.fetch_guilds, htr, pyIterList, buildGuilds, hinit]

/-- A concrete User (profile of id 1, holding `tok0`, empty guild cache). -/
def user0 : User :=
  { _data := .jobj [(.str "id", .jint 1)], _http := httpc, _acr := tok0,
    _avatar_hash := .jnull, _avatar_format := none, id := .jint 1,
    name := .jstr "u", avatar_url := none, discriminator := .jint 1,
    mfa_enabled := .jnull, email := .jnull, verified := .jnull, guilds := [] }

/-- Witness for C4: a concrete two-field guild object and a transport
returning a singleton guild list. -/
theorem C4_models_guild_key_error_witness :
    Models.Guild.init (.jobj guildDataNoIcon) (.jint 1)
      = .error (.keyError (.pair "id" 0))
    ∧ (user0.fetch_guilds
        (fun _ => .ok (.jarr [.jobj guildDataNoIcon])) true).1
      = .error (.keyError (.pair "id" 0)) :=
  C4_models_guild_key_error guildDataNoIcon (.jint 1) user0
    (fun _ => .ok (.jarr [.jobj guildDataNoIcon])) []
    (by intro p hp
        simp [guildDataNoIcon] at hp
        rcases hp with h | h
        · exact ⟨"id", by rw [h]⟩
        · exact ⟨"name", by rw [h]⟩)
    (by intro v hv
        simp [guildDataNoIcon, alistLookup] at hv)
    rfl

/-! ## C3: fetch_guilds cache behaviour -/

/-- C3: with `refresh=false`, an empty cache still performs the transport
request (the whole call behaves exactly like `refresh=true`, one request is
made), while a non-empty cache performs no request and returns the cached
sequence unchanged. -/
theorem C3_fetch_guilds_cache (u : User)
    (transport : Request → Except PyError JValue) :
    (u.guilds ≠ [] → u.fetch_guilds transport false = (.ok u.guilds, u, 0))
    ∧ (u.guilds = [] →
        u.fetch_guilds transport false = u.fetch_guilds transport true
        ∧ (u.fetch_guilds transport false).2.2 = 1) := by
  constructor
  · intro hne
    have hie : u.guilds.isEmpty = false := by
      rcases hg : u.guilds with _ | ⟨g, gs⟩
      · exact absurd hg hne
      · rfl
    simp [User.fetch_guilds, hie]
  · intro he
    have hfu : ∀ b, u.fetch_guilds transport b =
        (match transport u.guildsRequest with
         | .error e => (.error e, u, 1)
         | .ok resp =>
           match pyIterList resp with
           | .error e => (.error e, { u with guilds := [] }, 1)
           | .ok items =>
             let r := buildGuilds u.id items []
             (r.1, { u with guilds := r.2 }, 1)) := by
      intro b
      simp [User.fetch_guilds, he]
    refine ⟨(hfu false).trans (hfu true).symm, ?_⟩
    rw [hfu false]
    rcases htr : transport u.guildsRequest with e | resp
    · rfl
    · rcases resp <;> rfl

/-- A concrete models.py Guild value (as only a payload carrying the tuple key
`("id", 0)` can produce one, a literal is used for cache fixtures). -/
def g0 : Models.Guild :=
  { _data := .jobj [(.pair "id" 0, .jint 5), (.str "name", .jstr "g")],
    _icon_hash := .jnull, _icon_format := none, user_id := .jint 1,
    id := .jint 5, name := .jstr "g", icon_url := none,
    is_user_owner := .jnull, features := .jarr [] }

/-- `user0` with a non-empty guild cache. -/
def user1 : User := { user0 with guilds := [g0] }

/-- Witness for C3: a cached user skips the request, an uncached one behaves
like refresh=true and performs it. -/
theorem C3_fetch_guilds_cache_witness :
    (user1.fetch_guilds (fun _ => .ok (.jarr [])) false
      = (.ok user1.guilds, user1, 0))
    ∧ (user0.fetch_guilds (fun _ => .ok (.jarr [])) false
        = user0.fetch_guilds (fun _ => .ok (.jarr [])) true
      ∧ (user0.fetch_guilds (fun _ => .ok (.jarr [])) false).2.2 = 1) :=
  ⟨(C3_fetch_guilds_cache user1 (fun _ => .ok (.jarr []))).1
      (by simp [user1]),
   (C3_fetch_guilds_cache user0 (fun _ => .ok (.jarr []))).2 rfl⟩

/-! ## C7: refresh replaces the held TokenResponse -/

/-- C7: a successful `User.refresh` builds a TokenResponse from the
token-endpoint response, stores it as the user's held credential and returns
that same TokenResponse, so the user's access and refresh tokens subsequently
come from the new response. -/
theorem C7_refresh_replaces_token (u : User)
    (transport : Request → Except PyError JValue)
    (cid cs rd : JValue) (tok : TokenResponse)
    (hcid : stateLookup u._http "client_id" = .ok cid)
    (hcs : stateLookup u._http "client_secret" = .ok cs)
    (htr : transport (refreshRequest cid cs u.refresh_token) = .ok rd)
    (hparse : TokenResponse.init rd = .ok tok) :
    u.refresh transport = (.ok tok, { u with _acr := tok })
    ∧ ({ u with _acr := tok } : User).access_token = tok.access_token
    ∧ ({ u with _acr := tok } : User).refresh_token = tok.refresh_token := by
  refine ⟨?_, rfl, rfl⟩
  simp [User.refresh, hcid, hcs, htr, hparse]

/-- Witness for C7: refreshing `user0` against a transport that returns the
five-field payload `tokFields`. -/
theorem C7_refresh_replaces_token_witness :
    user0.refresh (fun _ => .ok (.jobj tokFields))
      = (.ok tok0, { user0 with _acr := tok0 })
    ∧ ({ user0 with _acr := tok0 } : User).access_token = tok0.access_token
    ∧ ({ user0 with _acr := tok0 } : User).refresh_token
        = tok0.refresh_token :=
  C7_refresh_replaces_token user0 (fun _ => .ok (.jobj tokFields))
    (.jint 1) (.jstr "s") (.jobj tokFields) tok0 rfl rfl rfl rfl

/-! ## C10: no state change on transport error -/

/-- C10: when the transport raises, `User.refresh` leaves the held
TokenResponse unchanged and `User.fetch_guilds(refresh=true)` leaves the
guild cache intact — both methods only write state after the request
succeeds. -/
theorem C10_error_atomicity (u : User)
    (transport : Request → Except PyError JValue) (e : PyError)
    (cid cs : JValue)
    (hfail : ∀ r, transport r = .error e)
    (hcid : stateLookup u._http "client_id" = .ok cid)
    (hcs : stateLookup u._http "client_secret" = .ok cs) :
    u.refresh transport = (.error e, u)
    ∧ u.fetch_guilds transport true = (.error e, u, 1) := by
  constructor
  · simp [User.refresh, hcid, hcs, hfail]
  · simp [User.fetch_guilds, hfail]

/-- Witness for C10: a transport that always fails leaves `user1` (cache and
credential) untouched. -/
theorem C10_error_atomicity_witness :
    user1.refresh (fun _ => .error .typeError) = (.error .typeError, user1)
    ∧ user1.fetch_guilds (fun _ => .error .typeError) true
        = (.error .typeError, user1, 1) :=
  C10_error_atomicity user1 (fun _ => .error .typeError) .typeError
    (.jint 1) (.jstr "s") (fun _ => rfl) rfl rfl

/-! ## C8: the authorization-URL builder -/

/-- The client of the C8 scenario (`client_id=123`, `redirect_uri`
`https://a.test/cb`, scopes `identify guilds`). -/
def c8client : OAuth2Client :=
  OAuth2Client.init 123 "s" "https://a.test/cb" (some ["identify", "guilds"])

/-- C8: `auth` is a pure deterministic function of the configuration and the
(state, prompt) arguments; supplying a (non-empty) state or prompt appends
exactly that query parameter to the base URL, and the concrete scenario
yields the expected URL with parameters in order client_id, redirect_uri,
scope, response_type, state. -/
theorem C8_auth_builder (c : OAuth2Client) (s p : String)
    (hs : s ≠ "") (hp : p ≠ "") :
    c.auth (some s) (some p) = c.auth (some s) (some p)
    ∧ c.auth (some s) none = c.auth none none ++ "&state=" ++ s
    ∧ c.auth none (some p) = c.auth none none ++ "&prompt=" ++ p
    ∧ c.auth (some s) (some p)
        = c.auth none none ++ "&state=" ++ s ++ "&prompt=" ++ p
    ∧ c8client.auth (some "xyz") none
        = "https://discord.com/api/oauth2/authorize?client_id=123&redirect_uri=https://a.test/cb&scope=identify guilds&response_type=code&state=xyz" := by
  refine ⟨rfl, ?_, ?_, ?_, ?_⟩
  · simp [OAuth2Client.auth, optTruthy, hs]
  · simp [OAuth2Client.auth, optTruthy, hp]
  · simp [OAuth2Client.auth, optTruthy, hs, hp]
  · rfl

/-- Witness for C8 at `state="xyz"`, `prompt="consent"`. -/
theorem C8_auth_builder_witness :
    c8client.auth (some "xyz") (some "consent")
        = c8client.auth (some "xyz") (some "consent")
    ∧ c8client.auth (some "xyz") none
        = c8client.auth none none ++ "&state=" ++ "xyz"
    ∧ c8client.auth none (some "consent")
        = c8client.auth none none ++ "&prompt=" ++ "consent"
    ∧ c8client.auth (some "xyz") (some "consent")
        = c8client.auth none none ++ "&state=" ++ "xyz" ++ "&prompt="
          ++ "consent"
    ∧ c8client.auth (some "xyz") none
        = "https://discord.com/api/oauth2/authorize?client_id=123&redirect_uri=https://a.test/cb&scope=identify guilds&response_type=code&state=xyz" :=
  C8_auth_builder c8client "xyz" "consent" (by decide) (by decide)

/-! ## C9: the scope segment is always present -/

/-- C9: a client constructed without scopes still renders a scope query
segment in every authorization URL (the literal `scope=None`). -/
theorem C9_scope_always_present (cid : Int) (secret ruri : String)
    (st pr : Option String) :
    ∃ pre suf, (OAuth2Client.init cid secret ruri none).auth st pr
      = pre ++ "&scope=None&" ++ suf := by
  refine ⟨DISCORD_URL ++ "/api/oauth2/authorize?"
    ++ ("client_id=" ++ toString cid) ++ "&" ++ ("redirect_uri=" ++ ruri),
    ?_⟩
  simp only [OAuth2Client.auth, OAuth2Client.init, pyStrOptS]
  cases hst : optTruthy st <;> cases hpr : optTruthy pr
  · exact ⟨"response_type=code", by simp [String.append_assoc]⟩
  · refine ⟨"response_type=code" ++ "&prompt=" ++ pr.getD "", ?_⟩
    simp [String.append_assoc]
    rw [← String.append_assoc "&scope=None&" "response_type=code&prompt="]
    simp [String.append_assoc]
  · refine ⟨"response_type=code" ++ "&state=" ++ st.getD "", ?_⟩
    simp [String.append_assoc]
    rw [← String.append_assoc "&scope=None&" "response_type=code&state="]
    simp [String.append_assoc]
  · refine ⟨"response_type=code" ++ "&state=" ++ st.getD "" ++ "&prompt="
      ++ pr.getD "", ?_⟩
    simp [String.append_assoc]
    rw [← String.append_assoc "&scope=None&" "response_type=code&state="]
    simp [String.append_assoc]

/-! ## C2: identify with a raw string token -/

/-- C2: `identify` builds the documented request for a string token
(`GET /users/@me`, `Authorization: Bearer <token>`), and for a TokenResponse
argument returns a User holding that same credential — but for a raw string
token the successful response is fed to `User.__init__` with `acr` being the
string itself, so `TokenResponse(data=<str>)` indexes a string with a string
key and the call raises TypeError instead of returning a User. -/
theorem C2_identify_string_token_bug :
    identifyRequest (.str "tok")
      = { route := { method := "GET", path := "/users/@me" },
          headers := [("Authorization", "Bearer tok")], data := [] }
    ∧ c8client.identify (fun _ => .ok (.jobj userDataAnim)) (.str "tok")
        = .error .typeError
    ∧ ∃ u, c8client.identify (fun _ => .ok (.jobj userDataAnim)) (.resp tok0)
        = .ok u ∧ u._acr = tok0 :=
  ⟨rfl, rfl, ⟨_, rfl, rfl⟩⟩

/-- C8 counterexample: supplying the state argument as the empty string adds
no state parameter at all — the URL is byte-identical to the one built with
state omitted (Python truthiness treats the empty string like None), refuting
that supplying the state argument always adds the state query parameter. -/
theorem C8_counterexample :
    c8client.auth (some "") none = c8client.auth none none
    ∧ c8client.auth (some "") none
      = "https://discord.com/api/oauth2/authorize?client_id=123&redirect_uri=https://a.test/cb&scope=identify guilds&response_type=code" :=
  ⟨rfl, rfl⟩
